import Mathlib

/-!
Shallow embedding of the google_classroom_api repository
(`classroom_api.py`, `cr_students_api.py`, `classroom_content_api.py`).
Remote services (the Google Classroom HTTP API and the google-auth
credential library) are modelled as explicit parameters: a service is a
function from the request the code builds to the response outcome, and
the credential's `expired` flag is an input datum, since the library
computing it is not part of this repository.  Every definition is a
direct translation of the corresponding Python function; logging calls
are elided, exceptions become `Except`/explicit error constructors, and
each remote-call site contributes to an explicit call counter where a
claim speaks about the number of remote calls issued.
-/

namespace Classroom

/-- Python exceptions that the embedded functions can raise or catch. -/
inductive PyErr where
  | httpError (status : Nat)
  | attributeError (attr : String)
  | fileNotFoundError
  | otherError
deriving DecidableEq, Repr

/-- Outcome of one `students().create(...)` remote call, as seen by the
caller of `.execute()`: success, an `HttpError` with a status, or some
other exception raised by the transport. -/
inductive AddResult where
  | success
  | httpError (status : Nat)
  | otherExc
deriving DecidableEq, Repr

/-- Python `str.lower()` on one character, for the ASCII range the
compared course/topic names use. -/
def lowerChar (c : Char) : Char :=
  if c.isUpper then Char.ofNat (c.toNat + 32) else c

/-- Python `str.lower()` (ASCII fragment), used by the case-insensitive
name scans `...lower() == ...lower()`. -/
def pyLower (s : String) : String :=
  ⟨s.data.map lowerChar⟩

/-- A student record parsed from a CSV/JSON file by `read_csv_json_file`:
an ordered association of string keys to string values (one CSV row /
one JSON object with string fields). -/
abbrev Record := List (String × String)

/-- Python `dict.get(k)`: the value bound to `k`, `none` when the key is
absent. -/
def Record.get (r : Record) (k : String) : Option String :=
  (r.find? (fun p => p.1 == k)).map (fun p => p.2)

/-- Python truthiness of `dict.get(k)` for string values: a missing key
(`None`) and the empty string are both falsy. -/
def Record.truthyGet (r : Record) (k : String) : Option String :=
  match r.get k with
  | some v => if v == "" then none else some v
  | none => none

/-- `student.get("email") or student.get("Email") or student.get("student_email")`
from `add_students_from_file`: the first truthy candidate, in that
priority order; `none` when every candidate is missing or empty. -/
def extract_email (r : Record) : Option String :=
  (r.truthyGet "email").orElse fun _ =>
    (r.truthyGet "Email").orElse fun _ =>
      r.truthyGet "student_email"

/-- The statistics dictionary `{"added": 0, "failed": 0, "already_exists": 0}`
maintained by both `add_students_from_file` implementations. -/
structure Stats where
  added : Nat
  failed : Nat
  already_exists : Nat
deriving DecidableEq, Repr

/-- Attributes assigned on a `GoogleClassroomBuild` instance:
`__init__` sets `creds`, and `build_services` sets `classroom_service`
(= `build("classroom","v1",...).courses()`) and `calendar_service`.
Subclass constructors additionally set `course_id`.  Python attribute
lookup on any other name raises `AttributeError`; in particular no code
path ever assigns an attribute named `classroom`. -/
def hasServiceAttr : String → Bool := fun n =>
  n == "creds" || n == "classroom_service" || n == "calendar_service" || n == "course_id"

/-- The invitation body built by `Students.invite_student`:
`{"userId": email, "courseId": str(course_id), "role": "STUDENT"}`. -/
structure InvitationBody where
  userId : String
  courseId : String
  role : String
deriving DecidableEq, Repr

/-- Outcome of one `invitations().create(...)` remote call. -/
inductive InviteResult where
  | success
  | httpError (status : Nat)
deriving DecidableEq, Repr

namespace CrStudents

/-- `cr_students_api.Students.add_student`: issues one
`students().create(courseId, {"userId": email})` call; returns `True` on
success, `False` on a 409 conflict (already enrolled), re-raises any
other `HttpError`; exceptions that are not `HttpError` are not caught
and propagate. -/
def add_student (svc : String → AddResult) (student_email : String) : Except PyErr Bool :=
  match svc student_email with
  | .success => .ok true
  | .httpError s => if s == 409 then .ok false else .error (.httpError s)
  | .otherExc => .error .otherError

/-- `cr_students_api.Students.invite_student`: builds the invitation body,
then evaluates `self.classroom.invitations()`.  `build_services` never
assigns an attribute named `classroom` (only `classroom_service` and
`calendar_service`), so the attribute lookup raises `AttributeError`
before any remote call is issued.  The `some` branch models the 409 /
re-raise handler that the code contains after the (unreachable) call.
Result: (outcome, number of invitation-create calls issued). -/
def invite_student (svc : InvitationBody → InviteResult) (course_id : String)
    (student_email : String) : Except PyErr Bool × Nat :=
  let body : InvitationBody :=
    { userId := student_email, courseId := course_id, role := "STUDENT" }
  if hasServiceAttr "classroom" then
    match svc body with
    | .success => (.ok true, 1)
    | .httpError s => if s == 409 then (.ok false, 1) else (.error (.httpError s), 1)
  else
    (.error (.attributeError "classroom"), 0)

/-- One iteration of the `for student in students` loop of
`cr_students_api.Students.add_students_from_file`: extract the email
(truthiness-based fall-through); a record with no usable email counts
`failed` and performs no remote call; otherwise the invite or add path
runs under `try/except Exception`, counting `added` on `True`,
`already_exists` on `False`, and `failed` on any exception.
The accumulator is (stats, remote calls issued so far). -/
def bulk_step (svcAdd : String → AddResult) (svcInv : InvitationBody → InviteResult)
    (course_id : String) (invite : Bool) (acc : Stats × Nat) (student : Record) :
    Stats × Nat :=
  match extract_email student with
  | none => ({ acc.1 with failed := acc.1.failed + 1 }, acc.2)
  | some email =>
    if invite then
      match invite_student svcInv course_id email with
      | (.ok true, n) => ({ acc.1 with added := acc.1.added + 1 }, acc.2 + n)
      | (.ok false, n) =>
          ({ acc.1 with already_exists := acc.1.already_exists + 1 }, acc.2 + n)
      | (.error _, n) => ({ acc.1 with failed := acc.1.failed + 1 }, acc.2 + n)
    else
      match add_student svcAdd email with
      | .ok true => ({ acc.1 with added := acc.1.added + 1 }, acc.2 + 1)
      | .ok false =>
          ({ acc.1 with already_exists := acc.1.already_exists + 1 }, acc.2 + 1)
      | .error _ => ({ acc.1 with failed := acc.1.failed + 1 }, acc.2 + 1)

/-- `cr_students_api.Students.add_students_from_file`, with the parsed
record list supplied directly (the file read is the collaborator
`read_csv_json_file`): an empty/missing record list returns the zero
statistics with no remote call; otherwise the per-record loop runs.
`invite = true` is the Invite mode (the Python default), `invite = false`
the Add mode.  Result: (final stats, total remote calls issued). -/
def add_students_from_file (svcAdd : String → AddResult)
    (svcInv : InvitationBody → InviteResult) (course_id : String) (invite : Bool)
    (students : List Record) : Stats × Nat :=
  if students.isEmpty then (⟨0, 0, 0⟩, 0)
  else students.foldl (bulk_step svcAdd svcInv course_id invite) (⟨0, 0, 0⟩, 0)

end CrStudents

namespace ClassroomApi

/-- `classroom_api.Students.add_student` (the duplicate definition in
`classroom_api.py`): returns `True` on success and `False` on every
failure — the 409 branch only logs a different message; non-409
`HttpError` and all other exceptions are caught and also return
`False`.  Nothing propagates to the caller. -/
def add_student (svc : String → AddResult) (student_email : String) : Except PyErr Bool :=
  match svc student_email with
  | .success => .ok true
  | .httpError _ => .ok false
  | .otherExc => .ok false

end ClassroomApi

namespace Roster

/-- Model of one `students().list(courseId, pageToken, pageSize)` response
for a fixed server-side roster: the page of at most `pageSize` entries
starting at cursor `idx` (the opaque page token is modelled as the start
index), together with `nextPageToken`, which the service includes
exactly when entries remain beyond this page. -/
def listPage (roster : List α) (pageSize idx : Nat) : List α × Option Nat :=
  ((roster.drop idx).take pageSize,
    if idx + pageSize < roster.length then some (idx + pageSize) else none)

/-- The `while True` cursor loop of `Students.get_students`: request a
page (always with `pageSize=100`), `extend` the accumulator, read
`nextPageToken`, and `break` exactly when the token is absent.  The
first argument of the recursion is fuel bounding the number of
iterations (the Python loop is unbounded; `roster.length + 1` fuel is
always sufficient).  Result: (students gathered in order, number of
paged list requests issued). -/
def drainStudents (roster : List α) : Nat → Nat → List α × Nat
  | 0, _ => ([], 0)
  | fuel + 1, idx =>
    let resp := listPage roster 100 idx
    match resp.2 with
    | none => (resp.1, 1)
    | some idx2 =>
      let rest := drainStudents roster fuel idx2
      (resp.1 ++ rest.1, rest.2 + 1)

/-- `cr_students_api.Students.get_students` /
`classroom_api.Students.get_students` on a server whose successive page
responses come from the fixed roster (the error handlers, which return
`[]`, concern a failing transport and are outside this success-path
model).  Result: (returned student list, paged requests issued). -/
def get_students (roster : List α) : List α × Nat :=
  drainStudents roster (roster.length + 1) 0

end Roster

/-- A course as returned by the courses listing: the fields the code
reads, `id` (opaque stable string) and `name` (display string). -/
structure Course where
  id : String
  name : String
deriving DecidableEq, Repr

/-- Normal return vs. exception escaping a Python call. -/
inductive PyOutcome (α : Type) where
  | ok (v : α)
  | raised (e : PyErr)
deriving DecidableEq, Repr

namespace Courses

/-- `classroom_api.Courses.get_courses`: one `courses().list(ACTIVE)`
call; on success it stores the listed courses in `self.courses` (the
`some` payload below) and returns `None`; any `HttpError` or other
exception is caught and logged, and the function returns `[]` leaving
the cache untouched (the `none` payload).  No exception escapes.
Result: (outcome carrying the cache update, remote list calls issued). -/
def get_courses (resp : Except Nat (List Course)) :
    PyOutcome (Option (List Course)) × Nat :=
  match resp with
  | .ok courses => (.ok (some courses), 1)
  | .error _status => (.ok none, 1)

/-- `classroom_api.Courses.get_course_by_name`: case-insensitive linear
scan of the cached course list, `course.get("name","").lower() ==
course_name.lower()`; the first match's `id` is returned (and stored as
`self.course_id`); with no match the function logs a warning and
returns `None`. -/
def get_course_by_name (courses : List Course) (course_name : String) : Option String :=
  (courses.find? (fun c => pyLower c.name == pyLower course_name)).map (fun c => c.id)

end Courses

/-- The course-creation body built by `CoursesCreation.create_course`:
all five text fields plus the constant `"ownerId": "me"`. -/
structure CourseBody where
  name : String
  «section» : String
  room : String
  description : String
  descriptionHeading : String
  ownerId : String
deriving DecidableEq, Repr

namespace CoursesCreation

/-- `classroom_api.CoursesCreation.create_course`: builds the body and
issues one `courses().create` call; on success stores and returns the
new course `id`; any `HttpError` or other exception is caught and
logged and the function returns `None`.  No exception escapes and the
call is never retried.  Result: (outcome, remote create calls issued). -/
def create_course (svc : CourseBody → Except Nat Course) (name : String)
    (sectionArg : String := "") (room : String := "") (description : String := "")
    (description_heading : String := "") : PyOutcome (Option String) × Nat :=
  let course_data : CourseBody :=
    { name := name, «section» := sectionArg, room := room, description := description,
      descriptionHeading := description_heading, ownerId := "me" }
  match svc course_data with
  | .ok course => (.ok (some course.id), 1)
  | .error _status => (.ok none, 1)

end CoursesCreation

/-- A topic as returned by the topics listing: the fields the code
reads, `name` (lookup key) and `topicId` (opaque, assigned by the
remote service; modelled as a numeral). -/
structure Topic where
  name : String
  topicId : Nat
deriving DecidableEq, Repr

/-- The remote topic store for one course: its listed topics plus the
next fresh id the service will assign on create.  The only mutation the
embedded code performs is `topics().create`, which appends the new
topic; the list does not change otherwise (the claim's unchanging-list
assumption). -/
structure TopicsState where
  topics : List Topic
  nextId : Nat
deriving DecidableEq, Repr

namespace Content

/-- `classroom_content_api.Content.get_topics`: one `topics().list`
call returning the course's listed topics (on the success path; the
error handlers return `[]`). -/
def get_topics (s : TopicsState) : List Topic :=
  s.topics

/-- The linear scan of `create_topic`:
`topic.get("name","").lower() == topic_name.lower()`, first hit. -/
def findTopic (topics : List Topic) (topic_name : String) : Option Topic :=
  topics.find? (fun t => pyLower t.name == pyLower topic_name)

/-- `classroom_content_api.Content.create_topic`: lists the topics
(single call, no pagination), scans case-insensitively; on a hit
returns the existing `topicId` with no create call; on a miss issues
one `topics().create({"name": topic_name})` call — the service assigns
the fresh id and appends the topic — and returns the new id.
Result: (returned id, topic store afterwards, create calls issued). -/
def create_topic (s : TopicsState) (topic_name : String) :
    Option Nat × TopicsState × Nat :=
  match findTopic (get_topics s) topic_name with
  | some topic => (some topic.topicId, s, 0)
  | none =>
    let topic_id := s.nextId
    (some topic_id,
      { topics := s.topics ++ [{ name := topic_name, topicId := topic_id }],
        nextId := s.nextId + 1 },
      1)

end Content

/-- Opaque material-attachment objects; the code passes them verbatim. -/
abbrev Material := String

/-- Python truthiness of an `Optional[List]` value: `None` and the empty
list are falsy. -/
def truthyList (m : Option (List Material)) : Bool :=
  match m with
  | none => false
  | some l => !l.isEmpty

/-- Python truthiness of an `Optional[str]` value: `None` and the empty
string are falsy. -/
def truthyStr (s : Option String) : Bool :=
  match s with
  | none => false
  | some v => !(v == "")

/-- The `announcement_data` dict built by `Content.create_announcement`:
text, constant state and assignee mode; the `materials` key is added
only when the argument is truthy (`if materials:`), so it is absent for
`None` and for an empty list (`none` = key absent). -/
structure AnnouncementBody where
  text : String
  state : String
  assigneeMode : String
  materials : Option (List Material)
deriving DecidableEq, Repr

/-- The `material_data` dict built by `Content.create_material`: title,
description, state; `topicId` added only when truthy; the `materials`
key is then assigned unconditionally (`material_data["materials"] =
materials`), so the key is always present and holds exactly the
caller's value — Python `None` (inner `none`) when no materials were
supplied.  Outer `Option`: key present in the dict; inner `Option`:
`None` vs. a list. -/
structure MaterialBody where
  title : String
  description : String
  state : String
  topicId : Option String
  materials : Option (Option (List Material))
deriving DecidableEq, Repr

namespace Content

/-- Body construction of `Content.create_announcement` (both copies,
`classroom_content_api.py` and `classroom_api.py`). -/
def announcement_body (text : String) (materials : Option (List Material)) :
    AnnouncementBody :=
  { text := text, state := "PUBLISHED", assigneeMode := "ALL_STUDENTS",
    materials := if truthyList materials then materials else none }

/-- Body construction of `Content.create_material` (both copies). -/
def material_body (title : String) (description : String)
    (topic_id : Option String) (materials : Option (List Material))
    (state : String) : MaterialBody :=
  { title := title, description := description, state := state,
    topicId := if truthyStr topic_id then topic_id else none,
    materials := some materials }

end Content

/-- The persisted OAuth credential as `authenticate` sees it: its expiry
instant (seconds, an opaque clock) and the `expired` flag computed by
the google-auth library.  The flag is an input because the library
computing it is not part of this repository; the repository's own logic
consults only the flag. -/
structure Credential where
  expiry : Int
  expired : Bool
deriving DecidableEq, Repr

/-- Result of `classroom_api.authenticate`: the credential returned
together with whether the interactive authorization flow
(`InstalledAppFlow...run_local_server`) was run, or the
`FileNotFoundError` raised when the client-secret file is missing. -/
inductive AuthResult where
  | ok (creds : Credential) (ranFlow : Bool)
  | fileNotFoundError
deriving DecidableEq, Repr

/-- `classroom_api.authenticate`: load the persisted credential when
`token.json` exists; run the interactive flow iff no credential loaded
or its `expired` flag is true (`if not creds or creds.expired:`),
raising `FileNotFoundError` first when `client_secret.json` is missing;
otherwise return the stored credential unchanged.  `flowResult` is the
fresh credential the interactive flow would produce. -/
def authenticate (tokenFileExists clientSecretExists : Bool)
    (stored flowResult : Credential) : AuthResult :=
  let creds : Option Credential := if tokenFileExists then some stored else none
  match creds with
  | some c =>
    if c.expired then
      if clientSecretExists then .ok flowResult true else .fileNotFoundError
    else
      .ok c false
  | none =>
    if clientSecretExists then .ok flowResult true else .fileNotFoundError

/-- Whether a run of `authenticate` executed the interactive flow. -/
def ranFlow : AuthResult → Bool
  | .ok _ b => b
  | .fileNotFoundError => false

/-- Number of records in a parsed file that have no usable email under
the truthiness-based extraction. -/
def noEmailCount (records : List Record) : Nat :=
  records.countP (fun r => (extract_email r).isNone)

end Classroom

namespace Classroom

theorem hasServiceAttr_classroom : hasServiceAttr "classroom" = false := by
  decide

theorem drainStudents_eq {α : Type} (roster : List α) :
    ∀ (fuel idx : Nat), 0 < fuel → roster.length ≤ idx + 100 * fuel →
      Roster.drainStudents roster fuel idx
        = (roster.drop idx, (roster.length - idx - 1) / 100 + 1) := by
  intro fuel
  induction fuel with
  | zero => intro idx h _; exact absurd h (by omega)
  | succ f ih =>
    intro idx _ hlen
    by_cases hc : idx + 100 < roster.length
    · have hf : 0 < f := by omega
      have hlen2 : roster.length ≤ (idx + 100) + 100 * f := by omega
      have hrec := ih (idx + 100) hf hlen2
      simp only [Roster.drainStudents, Roster.listPage, hc, if_true]
      rw [hrec]
      refine Prod.ext ?_ ?_
      · show (roster.drop idx).take 100 ++ roster.drop (idx + 100) = roster.drop idx
        rw [← List.drop_drop, List.take_append_drop]
      · show (roster.length - (idx + 100) - 1) / 100 + 1 + 1
            = (roster.length - idx - 1) / 100 + 1
        omega
    · simp only [Roster.drainStudents, Roster.listPage, hc, if_false]
      refine Prod.ext ?_ ?_
      · show (roster.drop idx).take 100 = roster.drop idx
        exact List.take_of_length_le (by simp [List.length_drop]; omega)
      · show 1 = (roster.length - idx - 1) / 100 + 1
        omega

/-- C4: `listStudents` fully drains pagination before returning: every
request carries page size 100, the loop stops exactly when the response
omits `nextPageToken`, the returned students are the server's list in
original order concatenated across pages, the number of paged requests
is `(n - 1) / 100 + 1`, and in particular a 250-student roster takes
exactly 3 requests and returns all 250 students in order. -/
theorem claim_C4_list_students_pagination :
    (∀ (α : Type) (roster : List α),
        Roster.get_students roster = (roster, (roster.length - 1) / 100 + 1)) ∧
      Roster.get_students (List.range 250) = (List.range 250, 3) := by
  have hgen : ∀ (α : Type) (roster : List α),
      Roster.get_students roster = (roster, (roster.length - 1) / 100 + 1) := by
    intro α roster
    have h := drainStudents_eq roster (roster.length + 1) 0 (by omega) (by omega)
    simpa [Roster.get_students] using h
  refine ⟨hgen, ?_⟩
  rw [hgen Nat (List.range 250)]
  norm_num [List.length_range]

/-- C7: the claim says `inviteStudent` creates an invitation through the
invitations sub-resource keyed by (userId, courseId, role=STUDENT) and
maps 409 to AlreadyInvited; in the code `invite_student` reads
`self.classroom`, an attribute `build_services` never assigns (it only
assigns `classroom_service` and `calendar_service`), so every call
raises `AttributeError` before a single remote call is issued and the
409 handler is unreachable. -/
theorem claim_C7_invite_student_attribute_bug :
    (∀ (svc : InvitationBody → InviteResult) (course_id email : String),
        CrStudents.invite_student svc course_id email
          = (Except.error (PyErr.attributeError "classroom"), 0)) ∧
      CrStudents.invite_student (fun _ => InviteResult.success) "770249109796" "a@x.com"
        = (Except.error (PyErr.attributeError "classroom"), 0) := by
  constructor
  · intro svc course_id email
    unfold CrStudents.invite_student
    rw [hasServiceAttr_classroom]
    rfl
  · rfl

/-- C3 counterexample: the repository has two `Students.add_student`
definitions; on a non-409 failure (status 500) the `classroom_api.py`
one returns `False` instead of raising, while the `cr_students_api.py`
one re-raises — so "every other failure status propagates" is false for
the former. -/
theorem claim_C3_counterexample :
    ClassroomApi.add_student (fun _ => AddResult.httpError 500) "a@x.com"
        = Except.ok false ∧
      CrStudents.add_student (fun _ => AddResult.httpError 500) "a@x.com"
        = Except.error (PyErr.httpError 500) :=
  ⟨rfl, rfl⟩

/-- C3 (amended): `cr_students_api.Students.add_student` interprets a
409 conflict as the AlreadyEnrolled variant (`False`) and re-raises any
other failure status; the duplicate `classroom_api.Students.add_student`
also maps 409 to `False` but swallows every other failure as well,
returning `False` instead of propagating it. -/
theorem claim_C3_add_student_conflict :
    ∀ (email : String) (s : Nat),
      CrStudents.add_student (fun _ => AddResult.success) email = Except.ok true ∧
      CrStudents.add_student (fun _ => AddResult.httpError s) email
          = (if s == 409 then Except.ok false else Except.error (PyErr.httpError s)) ∧
      ClassroomApi.add_student (fun _ => AddResult.success) email = Except.ok true ∧
      ClassroomApi.add_student (fun _ => AddResult.httpError s) email = Except.ok false ∧
      ClassroomApi.add_student (fun _ => AddResult.otherExc) email = Except.ok false := by
  intro email s
  exact ⟨rfl, rfl, rfl, rfl, rfl⟩

/-- C5 counterexample: a persisted credential whose `expired` flag is
false but whose time to expiry is 30s (< 60s) is returned as-is by
`authenticate` with no refresh flow, contradicting the claimed 60-second
safety margin. -/
theorem claim_C5_counterexample :
    authenticate true true ⟨30, false⟩ ⟨3600, false⟩ = AuthResult.ok ⟨30, false⟩ false ∧
      ranFlow (authenticate true true ⟨30, false⟩ ⟨3600, false⟩) = false ∧
      (30 : Int) - 0 < 60 := by
  exact ⟨rfl, rfl, by decide⟩

/-- C5 (amended): `authenticate` runs the interactive flow iff no
persisted credential loads or the credential's `expired` flag is true
(and the client secret exists); the decision never consults the expiry
instant, so no 60-second time-to-expiry margin beyond the flag is
applied. -/
theorem claim_C5_no_safety_margin :
    ∀ (tokenFileExists clientSecretExists : Bool) (stored flowResult : Credential),
      ranFlow (authenticate tokenFileExists clientSecretExists stored flowResult)
          = ((!tokenFileExists || stored.expired) && clientSecretExists) ∧
      ∀ (e : Int),
        ranFlow (authenticate tokenFileExists clientSecretExists
            ⟨e, stored.expired⟩ flowResult)
          = ranFlow (authenticate tokenFileExists clientSecretExists stored flowResult) := by
  intro tfe cse stored fr
  constructor
  · cases tfe <;> cases cse <;> cases hs : stored.expired <;>
      simp [authenticate, ranFlow, hs]
  · intro e
    cases tfe <;> cases cse <;> cases hs : stored.expired <;>
      simp [authenticate, ranFlow, hs]

/-- C6 counterexample: a remote 500 on the courses list call is caught
inside `get_courses`, which returns normally (logging and returning
`[]`, cache untouched) — and likewise `create_course` returns `None` —
instead of surfacing a `RemoteError` to the caller. -/
theorem claim_C6_counterexample :
    Courses.get_courses (Except.error 500) = (PyOutcome.ok none, 1) ∧
      CoursesCreation.create_course (fun _ => Except.error 500) "Algebra"
        = (PyOutcome.ok none, 1) :=
  ⟨rfl, rfl⟩

/-- C6 (amended): remote failures on the CourseResolver's list and
create calls are caught and logged inside the methods — `get_courses`
returns normally with an empty result and `create_course` returns
`None`; no exception escapes to the caller — and each method issues
exactly one remote call with no retry. -/
theorem claim_C6_errors_swallowed :
    ∀ (resp : Except Nat (List Course)) (s : Nat) (cs : List Course)
      (svc : CourseBody → Except Nat Course)
      (name sectionArg room description dh : String),
      Courses.get_courses (Except.error s) = (PyOutcome.ok none, 1) ∧
      Courses.get_courses (Except.ok cs) = (PyOutcome.ok (some cs), 1) ∧
      (Courses.get_courses resp).2 = 1 ∧
      CoursesCreation.create_course (fun _ => Except.error s)
          name sectionArg room description dh = (PyOutcome.ok none, 1) ∧
      (CoursesCreation.create_course svc name sectionArg room description dh).2 = 1 := by
  intro resp s cs svc name sectionArg room description dh
  refine ⟨rfl, rfl, ?_, rfl, ?_⟩
  · cases resp <;> rfl
  · cases hsvc : svc ⟨name, sectionArg, room, description, dh, "me"⟩ <;>
      simp [CoursesCreation.create_course, hsvc]

/-- C9 counterexample: with no materials supplied, `create_material`
puts the `materials` key in the body with value `None` (the inner
`none`), not an explicit empty collection. -/
theorem claim_C9_counterexample :
    (Content.material_body "T" "" none none "PUBLISHED").materials = some none ∧
      some (none : Option (List Material)) ≠ some (some ([] : List Material)) := by
  exact ⟨rfl, by decide⟩

/-- C9 (amended): `create_material` always includes the `materials` key
in the outgoing body, holding exactly the caller-supplied value — null
(`None`) when no materials are supplied, not an explicit empty
collection — whereas `create_announcement` omits the key entirely when
the supplied materials are absent or an empty list, including it only
for a nonempty list. -/
theorem claim_C9_materials_field_asymmetry :
    ∀ (title description state text : String) (topic_id : Option String)
      (materials : Option (List Material)) (x : Material) (l : List Material),
      (Content.material_body title description topic_id materials state).materials
          = some materials ∧
      (Content.announcement_body text none).materials = none ∧
      (Content.announcement_body text (some [])).materials = none ∧
      (Content.announcement_body text (some (x :: l))).materials = some (some (x :: l)) := by
  intro title description state text topic_id materials x l
  refine ⟨rfl, rfl, rfl, ?_⟩
  simp [Content.announcement_body, truthyList]

theorem bulk_step_bounds (svcAdd : String → AddResult)
    (svcInv : InvitationBody → InviteResult) (course_id : String) (invite : Bool)
    (acc : Stats × Nat) (r : Record) :
    ((CrStudents.bulk_step svcAdd svcInv course_id invite acc r).1.added
          + (CrStudents.bulk_step svcAdd svcInv course_id invite acc r).1.failed
          + (CrStudents.bulk_step svcAdd svcInv course_id invite acc r).1.already_exists
        = acc.1.added + acc.1.failed + acc.1.already_exists + 1)
      ∧ acc.1.failed + (if (extract_email r).isNone then 1 else 0)
          ≤ (CrStudents.bulk_step svcAdd svcInv course_id invite acc r).1.failed
      ∧ (CrStudents.bulk_step svcAdd svcInv course_id invite acc r).2
            + (if (extract_email r).isNone then 1 else 0)
        ≤ acc.2 + 1 := by
  cases hext : extract_email r with
  | none =>
    simp [CrStudents.bulk_step, hext]
    omega
  | some email =>
    cases invite with
    | true =>
      have hinv : CrStudents.invite_student svcInv course_id email
          = (Except.error (PyErr.attributeError "classroom"), 0) := by
        unfold CrStudents.invite_student
        rw [hasServiceAttr_classroom]
        rfl
      simp [CrStudents.bulk_step, hext, hinv]
      omega
    | false =>
      cases hA : svcAdd email with
      | success =>
        simp [CrStudents.bulk_step, CrStudents.add_student, hext, hA]
        omega
      | httpError s =>
        cases h9 : s == 409 <;>
          (simp [CrStudents.bulk_step, CrStudents.add_student, hext, hA, h9]; omega)
      | otherExc =>
        simp [CrStudents.bulk_step, CrStudents.add_student, hext, hA]
        omega

theorem bulk_foldl_bounds (svcAdd : String → AddResult)
    (svcInv : InvitationBody → InviteResult) (course_id : String) (invite : Bool) :
    ∀ (records : List Record) (acc : Stats × Nat),
      (((records.foldl (CrStudents.bulk_step svcAdd svcInv course_id invite) acc).1.added
          + (records.foldl (CrStudents.bulk_step svcAdd svcInv course_id invite) acc).1.failed
          + (records.foldl
              (CrStudents.bulk_step svcAdd svcInv course_id invite) acc).1.already_exists
        = acc.1.added + acc.1.failed + acc.1.already_exists + records.length)
      ∧ acc.1.failed + noEmailCount records
          ≤ (records.foldl (CrStudents.bulk_step svcAdd svcInv course_id invite) acc).1.failed
      ∧ (records.foldl (CrStudents.bulk_step svcAdd svcInv course_id invite) acc).2
            + noEmailCount records
        ≤ acc.2 + records.length) := by
  intro records
  induction records with
  | nil => intro acc; simp [noEmailCount]
  | cons r rs ih =>
    intro acc
    have hstep := bulk_step_bounds svcAdd svcInv course_id invite acc r
    have hind := ih (CrStudents.bulk_step svcAdd svcInv course_id invite acc r)
    simp only [List.foldl_cons, List.length_cons, noEmailCount, List.countP_cons] at *
    by_cases hni : (extract_email r).isNone = true
    · simp only [hni, if_true] at hstep ⊢
      omega
    · simp only [hni, if_false] at hstep ⊢
      omega

/-- C2: in `add_students_from_file`, every input record increments
exactly one of added / failed / already_exists (their sum equals the
record count); a record lacking every recognized email key increments
`failed` and causes no remote call, so with M such records
`failed ≥ M` and at most `N - M` remote calls are issued; and on the
three-record file `[{"email":"a@x.com"},{"Email":"b@x.com"},{"name":"no-email"}]`
in Add mode, against a service that accepts a@x.com and returns a 409
conflict for b@x.com, the result is added=1, already_exists=1, failed=1
with exactly 2 remote calls. -/
theorem claim_C2_bulk_add_counters :
    (∀ (svcAdd : String → AddResult) (svcInv : InvitationBody → InviteResult)
        (course_id : String) (invite : Bool) (records : List Record),
        ((CrStudents.add_students_from_file svcAdd svcInv course_id invite records).1.added
            + (CrStudents.add_students_from_file svcAdd svcInv course_id invite records).1.failed
            + (CrStudents.add_students_from_file
                svcAdd svcInv course_id invite records).1.already_exists
          = records.length)
        ∧ noEmailCount records
            ≤ (CrStudents.add_students_from_file svcAdd svcInv course_id invite records).1.failed
        ∧ (CrStudents.add_students_from_file svcAdd svcInv course_id invite records).2
              + noEmailCount records
            ≤ records.length) ∧
      CrStudents.add_students_from_file
          (fun e => if e == "a@x.com" then AddResult.success
            else if e == "b@x.com" then AddResult.httpError 409
            else AddResult.httpError 500)
          (fun _ => InviteResult.success) "c1" false
          [[("email", "a@x.com")], [("Email", "b@x.com")], [("name", "no-email")]]
        = (⟨1, 1, 1⟩, 2) := by
  constructor
  · intro svcAdd svcInv course_id invite records
    cases records with
    | nil => simp [CrStudents.add_students_from_file, noEmailCount]
    | cons r rs =>
      have h := bulk_foldl_bounds svcAdd svcInv course_id invite (r :: rs) (⟨0, 0, 0⟩, 0)
      simp only [CrStudents.add_students_from_file, List.isEmpty_cons, Bool.false_eq_true,
        if_false]
      simp only [List.length_cons] at h ⊢
      omega
  · rfl

/-- C10: email extraction in the bulk loop is decided by Python
truthiness of each candidate key's value, not key presence: a record
whose `email` key holds the empty string falls through to `Email` (and
then `student_email`), and a record in which every present candidate
key holds an empty value extracts no email, increments `failed`, and
issues no remote call. -/
theorem claim_C10_truthiness_email :
    extract_email [("email", ""), ("Email", "b@x.com")] = some "b@x.com" ∧
      ∀ (r : Record),
        (∀ k, k ∈ ["email", "Email", "student_email"] →
            r.get k = none ∨ r.get k = some "") →
          extract_email r = none ∧
            ∀ (svcAdd : String → AddResult) (svcInv : InvitationBody → InviteResult)
              (course_id : String) (invite : Bool) (acc : Stats × Nat),
              CrStudents.bulk_step svcAdd svcInv course_id invite acc r
                = ({ acc.1 with failed := acc.1.failed + 1 }, acc.2) := by
  constructor
  · rfl
  · intro r h
    have hng : ∀ k, k ∈ (["email", "Email", "student_email"] : List String) →
        r.truthyGet k = none := by
      intro k hk
      rcases h k hk with hcase | hcase <;> simp [Record.truthyGet, hcase]
    have hext : extract_email r = none := by
      simp [extract_email, Option.orElse, hng "email" (by simp), hng "Email" (by simp),
        hng "student_email" (by simp)]
    refine ⟨hext, ?_⟩
    intro svcAdd svcInv course_id invite acc
    simp [CrStudents.bulk_step, hext]

/-- C10 witness: the record `{"email": "", "student_email": ""}` has
every present candidate key mapped to an empty value; it extracts no
email and its loop iteration increments only `failed`, with zero remote
calls. -/
theorem claim_C10_witness :
    extract_email [("email", ""), ("student_email", "")] = none ∧
      CrStudents.bulk_step (fun _ => AddResult.success) (fun _ => InviteResult.success)
          "c1" true (⟨0, 0, 0⟩, 0) [("email", ""), ("student_email", "")]
        = (⟨0, 1, 0⟩, 0) := by
  have h := claim_C10_truthiness_email.2 [("email", ""), ("student_email", "")] (by decide)
  refine ⟨h.1, ?_⟩
  have h2 := h.2 (fun _ => AddResult.success) (fun _ => InviteResult.success)
    "c1" true (⟨0, 0, 0⟩, 0)
  simpa using h2

/-- C1: `create_topic` performs a case-insensitive linear scan of the
course's listed topics; on a hit it returns the existing `topicId`,
leaves the topic store untouched, and issues no create call; and with
the topic list changing only through its own create, calling it twice
with the same name returns the same id both times while issuing zero
create calls total when the name was already listed and exactly one
when it was not. -/
theorem claim_C1_find_or_create_topic :
    ∀ (s : TopicsState) (topic_name : String),
      (∀ t, Content.findTopic s.topics topic_name = some t →
          Content.create_topic s topic_name = (some t.topicId, s, 0)) ∧
        (Content.create_topic s topic_name).1
            = (Content.create_topic (Content.create_topic s topic_name).2.1 topic_name).1 ∧
        (Content.create_topic s topic_name).2.2
              + (Content.create_topic (Content.create_topic s topic_name).2.1 topic_name).2.2
          = (if (Content.findTopic s.topics topic_name).isSome then 0 else 1) := by
  intro s topic_name
  cases h : Content.findTopic s.topics topic_name with
  | some t =>
    have hct : Content.create_topic s topic_name = (some t.topicId, s, 0) := by
      unfold Content.create_topic Content.get_topics
      rw [h]
    refine ⟨?_, ?_, ?_⟩
    · intro u hu
      cases hu
      exact hct
    · simp only [hct]
    · simp only [hct, h]
      simp
  | none =>
    have h' : s.topics.find? (fun t => pyLower t.name == pyLower topic_name) = none := h
    have hfind : Content.findTopic
        (s.topics ++ [{ name := topic_name, topicId := s.nextId }]) topic_name
        = some { name := topic_name, topicId := s.nextId } := by
      unfold Content.findTopic
      rw [List.find?_append, h']
      simp [List.find?]
    have hct : Content.create_topic s topic_name
        = (some s.nextId,
            { topics := s.topics ++ [{ name := topic_name, topicId := s.nextId }],
              nextId := s.nextId + 1 }, 1) := by
      unfold Content.create_topic Content.get_topics
      rw [h]
    have hct2 : Content.create_topic
        { topics := s.topics ++ [{ name := topic_name, topicId := s.nextId }],
          nextId := s.nextId + 1 } topic_name
        = (some s.nextId,
            { topics := s.topics ++ [{ name := topic_name, topicId := s.nextId }],
              nextId := s.nextId + 1 }, 0) := by
      unfold Content.create_topic Content.get_topics
      rw [hfind]
    refine ⟨?_, ?_, ?_⟩
    · intro u hu
      exact absurd hu (by simp)
    · simp only [hct, hct2]
    · simp only [hct, hct2, h]
      simp

/-- C1 witness: on a store listing a topic named "Algebra" with id 7,
`create_topic` for the name "ALGEBRA" hits case-insensitively and
returns id 7 with the store unchanged and zero create calls; for the
absent name "Geometry" the two successive calls issue exactly one
create call total. -/
theorem claim_C1_witness :
    Content.create_topic ⟨[⟨"Algebra", 7⟩], 8⟩ "ALGEBRA"
        = (some 7, ⟨[⟨"Algebra", 7⟩], 8⟩, 0) ∧
      (Content.create_topic ⟨[⟨"Algebra", 7⟩], 8⟩ "Geometry").2.2
          + (Content.create_topic
              (Content.create_topic ⟨[⟨"Algebra", 7⟩], 8⟩ "Geometry").2.1 "Geometry").2.2
        = 1 := by
  constructor
  · exact (claim_C1_find_or_create_topic ⟨[⟨"Algebra", 7⟩], 8⟩ "ALGEBRA").1
      ⟨"Algebra", 7⟩ (by decide)
  · have h := (claim_C1_find_or_create_topic ⟨[⟨"Algebra", 7⟩], 8⟩ "Geometry").2.2
    have hif : (if (Content.findTopic
        (TopicsState.mk [⟨"Algebra", 7⟩] 8).topics "Geometry").isSome
          then 0 else 1) = 1 := by decide
    rw [hif] at h
    exact h

/-- C8: `get_course_by_name` matches the cached course list
case-insensitively with exact name equality — names with equal
lowerings resolve identically, the first matching course's id is
returned even when later courses also match — and it returns `none`
rather than failing when no cached course matches. -/
theorem claim_C8_resolve_by_name :
    (∀ (courses : List Course) (n1 n2 : String), pyLower n1 = pyLower n2 →
        Courses.get_course_by_name courses n1 = Courses.get_course_by_name courses n2) ∧
      (∀ (pre post : List Course) (c : Course) (course_name : String),
          (∀ c0 ∈ pre, pyLower c0.name ≠ pyLower course_name) →
            pyLower c.name = pyLower course_name →
            Courses.get_course_by_name (pre ++ c :: post) course_name = some c.id) ∧
      (∀ (courses : List Course) (course_name : String),
          (∀ c0 ∈ courses, pyLower c0.name ≠ pyLower course_name) →
            Courses.get_course_by_name courses course_name = none) := by
  refine ⟨?_, ?_, ?_⟩
  · intro courses n1 n2 hlow
    unfold Courses.get_course_by_name
    rw [hlow]
  · intro pre post c course_name hpre hc
    unfold Courses.get_course_by_name
    have hnone : pre.find? (fun c0 => pyLower c0.name == pyLower course_name) = none := by
      rw [List.find?_eq_none]
      intro x hx
      simpa using hpre x hx
    have hcons : List.find? (fun c0 => pyLower c0.name == pyLower course_name) (c :: post)
        = some c :=
      List.find?_cons_of_pos _ (by simp [hc])
    rw [List.find?_append, hnone, hcons]
    rfl
  · intro courses course_name hall
    unfold Courses.get_course_by_name
    have hnone : courses.find? (fun c0 => pyLower c0.name == pyLower course_name) = none := by
      rw [List.find?_eq_none]
      intro x hx
      simpa using hall x hx
    rw [hnone]
    rfl

/-- C8 witness: on a cache holding Geometry (id x-1), Algebra (id c-77)
and a second lower-case algebra (id c-88), resolving "Algebra" and
"ALGEBRA" give the same answer, the first case-insensitive match c-77
wins over the later one, and an unmatched name resolves to `none`. -/
theorem claim_C8_witness :
    Courses.get_course_by_name
        [⟨"x-1", "Geometry"⟩, ⟨"c-77", "Algebra"⟩, ⟨"c-88", "algebra"⟩] "Algebra"
      = Courses.get_course_by_name
        [⟨"x-1", "Geometry"⟩, ⟨"c-77", "Algebra"⟩, ⟨"c-88", "algebra"⟩] "ALGEBRA" ∧
    Courses.get_course_by_name
        ([⟨"x-1", "Geometry"⟩] ++ ⟨"c-77", "Algebra"⟩ :: [⟨"c-88", "algebra"⟩]) "ALGEBRA"
      = some "c-77" ∧
    Courses.get_course_by_name [⟨"x-1", "Geometry"⟩, ⟨"c-77", "Algebra"⟩] "Physics"
      = none := by
  refine ⟨?_, ?_, ?_⟩
  · exact claim_C8_resolve_by_name.1 _ "Algebra" "ALGEBRA" (by decide)
  · exact claim_C8_resolve_by_name.2.1 [⟨"x-1", "Geometry"⟩] [⟨"c-88", "algebra"⟩]
      ⟨"c-77", "Algebra"⟩ "ALGEBRA" (by decide) (by decide)
  · exact claim_C8_resolve_by_name.2.2 [⟨"x-1", "Geometry"⟩, ⟨"c-77", "Algebra"⟩]
      "Physics" (by decide)

end Classroom
